import Mathlib

/-!
Verification of the game-code distribution engine
(`src/dingomata/cogs/gamecode/gamecode.py`).

The cog class `GameCodeSenderCommands` keeps, per process:
  `_pools : Dict[int, MemberPool]` (per guild, created lazily),
  `_title : str` (a single string for the whole process),
  `_picked_users : Dict[int, List[Member]]`,
  `_previously_selected_users : Dict[int, Set[Member]]`.
The file `dingomata/cogs/gamecode/pool.py` (class `MemberPool`) is not part
of the sources; its operations are modelled from the spec and marked as such.

Two assignments in the cog replace a whole attribute instead of one entry:
`pick` runs `self._picked_users = pool.pick(count)` (the dict becomes a bare
list) and `clear_selected` runs `self._previously_selected_users = set()`
(the dict becomes an empty set).  The embedding keeps both possibilities in
the types `PickedUsers` and `PrevSelected` so that the commands can be
translated line by line, including the exceptions Python raises afterwards.
-/

namespace Dingomata

/-- A chat-platform member: identifier, display name, role ids held. -/
structure Member where
  id : Nat
  displayName : String
  roles : List Nat
deriving Repr, DecidableEq

/-- Pool admission state; `opened` is the Python `is_open = True` case. -/
inductive PoolState
  | opened
  | closed
deriving Repr, DecidableEq

/-- The `game_code` part of the guild configuration that the cog reads. -/
structure GameCodeConfig where
  playerRoles : List Nat
  excludeSelected : Bool
deriving Repr, DecidableEq

/-- The error raised by `MemberPool.add_member` for a missing role. -/
inductive MemberRoleError
  | missingRoles
deriving Repr, DecidableEq

/-- Failure modes of `MemberPool.pick`: count at most zero, or empty pool. -/
inductive PoolPickError
  | invalidCount
  | emptyPool
deriving Repr, DecidableEq

/-- Modelled from the spec: `pool.py` is not under the sources.  A per-guild
pool holds an admission state and the member set (kept in insertion order,
unique by member id). -/
structure MemberPool where
  guildId : Nat
  state : PoolState
  members : List Member
deriving Repr, DecidableEq

/-- Modelled from the spec: `MemberPool(guild_id)` starts `Closed` and empty. -/
def MemberPool.init (g : Nat) : MemberPool :=
  { guildId := g, state := .closed, members := [] }

/-- Modelled from the spec: the `is_open` accessor used by `join` and `leave`. -/
def MemberPool.isOpen (p : MemberPool) : Bool :=
  p.state == .opened

/-- Modelled from the spec: `size` is the cardinality of the member set. -/
def MemberPool.size (p : MemberPool) : Nat :=
  p.members.length

/-- Modelled from the spec: `open()` sets the state to `Open`, clears nothing. -/
def MemberPool.openPool (p : MemberPool) : MemberPool :=
  { p with state := .opened }

/-- Modelled from the spec: `close()` sets the state to `Closed`. -/
def MemberPool.closePool (p : MemberPool) : MemberPool :=
  { p with state := .closed }

/-- Modelled from the spec: `clear()` empties the member set. -/
def MemberPool.clear (p : MemberPool) : MemberPool :=
  { p with members := [] }

/-- Modelled from the spec: `add_member` checks that the member holds one of
the configured required roles (when any are configured), raising
`MemberRoleError` otherwise; re-adding a present member is a no-op. -/
def MemberPool.addMember (p : MemberPool) (requiredRoles : List Nat) (m : Member) :
    Except MemberRoleError MemberPool :=
  if requiredRoles.isEmpty || m.roles.any (fun r => requiredRoles.contains r) then
    if p.members.any (fun x => x.id == m.id) then .ok p
    else .ok { p with members := p.members ++ [m] }
  else .error .missingRoles

/-- Modelled from the spec: `remove_member` drops the member, a no-op when
the member is absent. -/
def MemberPool.removeMember (p : MemberPool) (m : Member) : MemberPool :=
  { p with members := p.members.filter (fun x => x.id != m.id) }

/-- Modelled from the spec: `pick(count)` rejects a count at most zero and an
empty pool, closes the pool, and returns a uniform sample without replacement
of `min(count, size)` members.  The randomness is passed in as `shuffled`, a
permutation of the member list, and the sample is its prefix. -/
def MemberPool.pick (p : MemberPool) (count : Int) (shuffled : List Member) :
    Except PoolPickError (MemberPool × List Member) :=
  if count ≤ 0 then .error .invalidCount
  else if p.members.isEmpty then .error .emptyPool
  else .ok ({ p with state := .closed }, shuffled.take (min count.toNat p.members.length))

/-- The `_picked_users` attribute.  Declared as `Dict[int, List[Member]]`,
but line 142 (`self._picked_users = pool.pick(count)`) replaces the dict with
the bare list returned by the pool. -/
inductive PickedUsers
  | dict (entries : List (Nat × List Member))
  | pylist (batch : List Member)
deriving Repr, DecidableEq

/-- The `_previously_selected_users` attribute.  Declared as
`Dict[int, Set[Member]]`, but line 211 (`self._previously_selected_users =
set()`) replaces the dict with a single empty set. -/
inductive PrevSelected
  | dict (entries : List (Nat × List Member))
  | pyset (elems : List Member)
deriving Repr, DecidableEq

/-- The mutable state of `GameCodeSenderCommands` (one instance per process). -/
structure CogState where
  pools : List (Nat × MemberPool)
  title : String
  pickedUsers : PickedUsers
  prevSelected : PrevSelected
deriving Repr, DecidableEq

/-- `__init__`: empty pools, empty title, empty dicts. -/
def initialState : CogState :=
  { pools := [], title := "", pickedUsers := .dict [], prevSelected := .dict [] }

/-- `_pool_for_guild`, creation half: insert a fresh closed pool when the
guild has none yet (Python dicts append new keys at the end). -/
def CogState.ensurePool (st : CogState) (g : Nat) : CogState :=
  match st.pools.find? (fun kv => kv.fst == g) with
  | some _ => st
  | none => { st with pools := st.pools ++ [(g, MemberPool.init g)] }

/-- The pool the cog would use for guild `g`: the stored one, or a fresh
closed pool when none is stored yet. -/
def CogState.poolFor (st : CogState) (g : Nat) : MemberPool :=
  match st.pools.find? (fun kv => kv.fst == g) with
  | some kv => kv.snd
  | none => MemberPool.init g

/-- Store an updated pool object for guild `g` (the Python code mutates the
`MemberPool` object held in `_pools`). -/
def CogState.setPool (st : CogState) (g : Nat) (p : MemberPool) : CogState :=
  { st with pools := st.pools.map (fun kv => if kv.fst == g then (g, p) else kv) }

/-- Python `==` between a discord `Member` object and an `int` dictionary
key: `Member.__eq__` accepts only user objects and `int.__eq__` only
numbers, so the comparison is always false. -/
def memberEqIntKey (_ : Member) (_ : Nat) : Bool :=
  false

/-- `ctx.author in self._previously_selected_users` (line 45 of `join`): on
a dict this tests the author against the keys, which are guild ids; on a set
it tests element membership. -/
def PrevSelected.containsMember : PrevSelected → Member → Bool
  | .dict entries, m => entries.any (fun kv => memberEqIntKey m kv.fst)
  | .pyset elems, m => elems.any (fun x => x == m)

/-- What `join` replies with. -/
inductive JoinOutcome
  | joined
  | roleIneligible
  | recentlySelected
  | poolClosed
deriving Repr, DecidableEq

/-- `join` (lines 41 to 59): look up the pool; when open, first test the
author against `_previously_selected_users` and return early on a hit, then
try `add_member`, catching `MemberRoleError`; when closed, reject. -/
def joinCmd (st : CogState) (g : Nat) (author : Member) (cfg : GameCodeConfig) :
    CogState × JoinOutcome :=
  let st1 := st.ensurePool g
  let pool := st1.poolFor g
  if pool.isOpen then
    if st1.prevSelected.containsMember author then (st1, .recentlySelected)
    else
      match pool.addMember cfg.playerRoles author with
      | .ok p2 => (st1.setPool g p2, .joined)
      | .error _ => (st1, .roleIneligible)
  else (st1, .poolClosed)

/-- The observable steps of one `join` call, in evaluation order, read off
the control flow of lines 41 to 59. -/
inductive JoinStep
  | checkOpen
  | checkRecent
  | checkRolesAndAdd
  | replyRecent
  | replyJoined
  | replyRoleError
  | replyClosed
deriving Repr, DecidableEq

/-- The step trace of one `join` call: the open test runs first; when open,
the recently-selected test runs next, unconditionally; only when it is
negative does `add_member` run its role check. -/
def joinTrace (st : CogState) (g : Nat) (author : Member) (cfg : GameCodeConfig) :
    List JoinStep :=
  let st1 := st.ensurePool g
  let pool := st1.poolFor g
  if pool.isOpen then
    .checkOpen :: .checkRecent ::
      (if st1.prevSelected.containsMember author then [.replyRecent]
       else .checkRolesAndAdd ::
         (match pool.addMember cfg.playerRoles author with
          | .ok _ => [.replyJoined]
          | .error _ => [.replyRoleError]))
  else [.checkOpen, .replyClosed]

/-- `leave` (lines 67 to 77): remove only while the pool is open. -/
def leaveCmd (st : CogState) (g : Nat) (author : Member) : CogState :=
  let st1 := st.ensurePool g
  let pool := st1.poolFor g
  if pool.isOpen then st1.setPool g (pool.removeMember author)
  else st1

/-- `game open` (lines 90 to 100): open the pool, and replace the single
process-wide `_title` only when the supplied title is non-empty (Python
`if title:`). -/
def openCmd (st : CogState) (g : Nat) (title : String) : CogState :=
  let st1 := st.ensurePool g
  let st2 := st1.setPool g (st1.poolFor g).openPool
  if title == "" then st2 else { st2 with title := title }

/-- `game close` (lines 110 to 119). -/
def closeCmd (st : CogState) (g : Nat) : CogState :=
  let st1 := st.ensurePool g
  st1.setPool g (st1.poolFor g).closePool

/-- `game clear_pool` (lines 198 to 200). -/
def clearPoolCmd (st : CogState) (g : Nat) : CogState :=
  let st1 := st.ensurePool g
  st1.setPool g (st1.poolFor g).clear

/-- `game clear_selected` (lines 210 to 212): the assignment
`self._previously_selected_users = set()` replaces the per-guild dict with
one empty set, for every guild at once. -/
def clearSelectedCmd (st : CogState) (_g : Nat) : CogState :=
  { st with prevSelected := .pyset [] }

/-- Outcome of one `user.send(message)` call, as the `resend` loop
distinguishes them: success, `Forbidden` (DM closed), other `HTTPException`. -/
inductive SendOutcome
  | delivered
  | forbidden
  | httpError
deriving Repr, DecidableEq

/-- Whether a send outcome is a success. -/
def SendOutcome.isDelivered : SendOutcome → Bool
  | .delivered => true
  | .forbidden => false
  | .httpError => false

/-- Exceptions the cog lets escape: `KeyError` from a missing dict key,
`IndexError` and `TypeError` from treating the picked-users list as a dict,
and whatever `MemberPool.pick` raises. -/
inductive PyErr
  | keyError
  | indexError
  | typeError
  | poolError (e : PoolPickError)
deriving Repr, DecidableEq

/-- What one run of the `resend` loop did: every recipient attempted in
order, the successful deliveries, and the failure reports with reasons. -/
structure DispatchReport where
  attempted : List Member
  delivered : List Member
  failures : List (Member × SendOutcome)
deriving Repr, DecidableEq

/-- The fan-out loop of `resend` (lines 165 to 175): one `try` per
recipient, `Forbidden` and `HTTPException` each caught and reported inside
the loop body, so the loop always runs to the end of the list. -/
def dispatchLoop (recipients : List Member) (send : Member → SendOutcome) :
    DispatchReport :=
  match recipients with
  | [] => { attempted := [], delivered := [], failures := [] }
  | u :: rest =>
    let r := dispatchLoop rest send
    match send u with
    | .delivered =>
      { attempted := u :: r.attempted, delivered := u :: r.delivered, failures := r.failures }
    | o =>
      { attempted := u :: r.attempted, delivered := r.delivered, failures := (u, o) :: r.failures }

/-- `self._picked_users[ctx.guild.id]` followed by iteration (line 165).  On
the dict, a missing guild key raises `KeyError`.  After `pick` the attribute
is a bare list: indexing it with a guild id yields one `Member` when the id
is below the list length, and iterating a `Member` raises `TypeError`;
otherwise the indexing itself raises `IndexError`. -/
def PickedUsers.recipients : PickedUsers → Nat → Except PyErr (List Member)
  | .dict entries, g =>
    match entries.find? (fun kv => kv.fst == g) with
    | some kv => .ok kv.snd
    | none => .error .keyError
  | .pylist batch, g =>
    if g < batch.length then .error .typeError else .error .indexError

/-- `game resend` (lines 164 to 176): read the recipients for the guild and
run the fan-out loop; the cog state is not modified. -/
def resendCmd (st : CogState) (g : Nat) (send : Member → SendOutcome) :
    CogState × Except PyErr DispatchReport :=
  match st.pickedUsers.recipients g with
  | .error e => (st, .error e)
  | .ok recipients => (st, .ok (dispatchLoop recipients send))

/-- `self._previously_selected_users[ctx.guild.id].update(...)` (line 145):
raises `KeyError` when the guild id is not a key of the dict (and nothing in
the class ever inserts such a key), and `TypeError` when `clear_selected`
has replaced the dict by a plain set.  On a present key, `set.update` adds
the batch members not already present. -/
def PrevSelected.updateForGuild : PrevSelected → Nat → List Member → Except PyErr PrevSelected
  | .dict entries, g, batch =>
    match entries.find? (fun kv => kv.fst == g) with
    | some _ =>
      .ok (.dict (entries.map (fun kv =>
        if kv.fst == g then
          (kv.fst, kv.snd ++ batch.filter (fun b => !kv.snd.any (fun x => x.id == b.id)))
        else kv)))
    | none => .error .keyError
  | .pyset _, _, _ => .error .typeError

/-- `game pick` (lines 133 to 151): run the pool draw (which closes the
pool), store the batch by assigning it over the whole `_picked_users`
attribute (line 142), update the exclusion dict when configured (line 145),
announce, then call `resend`.  Exceptions propagate, keeping the state
mutations made before they were raised; the announcement embed is external
output and always succeeds here. -/
def pickCmd (st : CogState) (g : Nat) (count : Int) (shuffled : List Member)
    (cfg : GameCodeConfig) (send : Member → SendOutcome) :
    CogState × Except PyErr DispatchReport :=
  let st1 := st.ensurePool g
  let pool := st1.poolFor g
  match pool.pick count shuffled with
  | .error e => (st1, .error (.poolError e))
  | .ok (p2, batch) =>
    let st2 := { st1.setPool g p2 with pickedUsers := .pylist batch }
    if cfg.excludeSelected then
      match st2.prevSelected.updateForGuild g batch with
      | .error e => (st2, .error e)
      | .ok prev => resendCmd { st2 with prevSelected := prev } g send
    else resendCmd st2 g send

/-! Concrete fixtures used by the witnesses. -/

/-- A role-free member used in concrete runs. -/
def alice : Member := { id := 1, displayName := "a", roles := [] }

/-- A second role-free member. -/
def bob : Member := { id := 2, displayName := "b", roles := [] }

/-- A third role-free member. -/
def carol : Member := { id := 3, displayName := "c", roles := [] }

/-- Configuration with no required roles and exclusion tracking off. -/
def cfgPlain : GameCodeConfig := { playerRoles := [], excludeSelected := false }

/-- Configuration with no required roles and exclusion tracking on. -/
def cfgExclude : GameCodeConfig := { playerRoles := [], excludeSelected := true }

/-- A platform send that always succeeds. -/
def sendOk : Member → SendOutcome := fun _ => .delivered

/-- A platform send for which the member with id 2 has closed DMs. -/
def sendFailBob : Member → SendOutcome := fun m => if m.id == 2 then .forbidden else .delivered

/-- A small pool with two members, used as a pick witness. -/
def poolAB : MemberPool := { guildId := 9, state := .opened, members := [alice, bob] }

/-- State after opening the pool of guild 9 and one successful join. -/
def stOpenAlice : CogState := (joinCmd (openCmd initialState 9 "t") 9 alice cfgPlain).fst

/-- State after opening the pool of guild 9 and two successful joins. -/
def stOpenAliceBob : CogState := (joinCmd stOpenAlice 9 bob cfgPlain).fst

/-- A state whose picked-users attribute is still the dict and holds a batch
for guild 9 (as the declared type `Dict[int, List[Member]]` describes). -/
def stBatch : CogState :=
  { pools := [], title := "", pickedUsers := .dict [(9, [alice, bob, carol])],
    prevSelected := .dict [] }

/-! Helper lemmas about the state bookkeeping. -/

/-- `find?` skips a prefix on which it found nothing. -/
theorem find?_append_of_none {α : Type} (l1 l2 : List α) (p : α → Bool)
    (h : l1.find? p = none) : (l1 ++ l2).find? p = l2.find? p := by
  induction l1 with
  | nil => simp
  | cons a l ih =>
    cases hp : p a with
    | true => rw [List.find?_cons_of_pos _ hp] at h; exact absurd h (by simp)
    | false =>
      rw [List.find?_cons_of_neg _ (by simp [hp])] at h
      rw [List.cons_append, List.find?_cons_of_neg _ (by simp [hp])]
      exact ih h

/-- Looking the pool up right after the lazy creation gives the same pool as
looking it up before (a fresh closed pool when none was stored). -/
theorem ensurePool_poolFor (st : CogState) (g : Nat) :
    (st.ensurePool g).poolFor g = st.poolFor g := by
  unfold CogState.ensurePool CogState.poolFor
  cases h : st.pools.find? (fun kv => kv.fst == g) with
  | some kv => simp [h]
  | none => simp [h, find?_append_of_none _ _ _ h, List.find?]

/-- After the lazy creation the guild has an entry in the pools dict. -/
theorem ensurePool_find_isSome (st : CogState) (g : Nat) :
    (((st.ensurePool g).pools).find? (fun kv => kv.fst == g)).isSome := by
  unfold CogState.ensurePool
  cases h : st.pools.find? (fun kv => kv.fst == g) with
  | some kv => simp [h]
  | none => simp [find?_append_of_none _ _ _ h, List.find?]

/-- Updating the stored pool of a guild that has an entry makes the lookup
return the new pool. -/
theorem find?_map_setPool (pools : List (Nat × MemberPool)) (g : Nat) (p : MemberPool)
    (h : (pools.find? (fun kv => kv.fst == g)).isSome) :
    (pools.map (fun kv => if kv.fst == g then (g, p) else kv)).find? (fun kv => kv.fst == g)
      = some (g, p) := by
  induction pools with
  | nil => simp at h
  | cons kv rest ih =>
    cases hg : kv.fst == g with
    | true =>
      have hkv : (if kv.fst == g then (g, p) else kv) = (g, p) := by simp [hg]
      rw [List.map_cons, hkv, List.find?_cons_of_pos _ (by simp)]
    | false =>
      rw [List.find?_cons_of_neg _ (by simp [hg])] at h
      have hkv : (if kv.fst == g then (g, p) else kv) = kv := by simp [hg]
      rw [List.map_cons, hkv, List.find?_cons_of_neg _ (by simp [hg])]
      exact ih h

/-- `setPool` on a guild with an entry updates the pool seen by `poolFor`. -/
theorem setPool_poolFor (st : CogState) (g : Nat) (p : MemberPool)
    (h : (st.pools.find? (fun kv => kv.fst == g)).isSome) :
    (st.setPool g p).poolFor g = p := by
  unfold CogState.setPool CogState.poolFor
  rw [find?_map_setPool st.pools g p h]

/-- `poolFor` only reads the pools field. -/
theorem poolFor_eq_of_pools_eq (s1 s2 : CogState) (g : Nat) (h : s1.pools = s2.pools) :
    s1.poolFor g = s2.poolFor g := by
  unfold CogState.poolFor
  rw [h]

/-- Lazy pool creation does not touch the title, the picked users or the
exclusion structure. -/
theorem ensurePool_frame (st : CogState) (g : Nat) :
    (st.ensurePool g).title = st.title ∧
    (st.ensurePool g).pickedUsers = st.pickedUsers ∧
    (st.ensurePool g).prevSelected = st.prevSelected := by
  unfold CogState.ensurePool
  cases h : st.pools.find? (fun kv => kv.fst == g) <;> simp

/-- Storing a pool does not touch the title, the picked users or the
exclusion structure. -/
theorem setPool_frame (st : CogState) (g : Nat) (p : MemberPool) :
    (st.setPool g p).title = st.title ∧
    (st.setPool g p).pickedUsers = st.pickedUsers ∧
    (st.setPool g p).prevSelected = st.prevSelected :=
  ⟨rfl, rfl, rfl⟩

/-- `resend` never modifies the cog state. -/
theorem resendCmd_fst (st : CogState) (g : Nat) (send : Member → SendOutcome) :
    (resendCmd st g send).fst = st := by
  unfold resendCmd
  cases h : st.pickedUsers.recipients g <;> simp

/-- Replacing the title leaves the pool lookup unchanged. -/
theorem poolFor_set_title (st : CogState) (g : Nat) (t : String) :
    ({ st with title := t } : CogState).poolFor g = st.poolFor g :=
  rfl

/-- A successful `MemberPool.pick` returns a closed pool. -/
theorem pick_ok_state_closed (p : MemberPool) (count : Int) (shuffled : List Member)
    (p2 : MemberPool) (batch : List Member)
    (hok : p.pick count shuffled = .ok (p2, batch)) : p2.state = .closed := by
  unfold MemberPool.pick at hok
  by_cases h1 : count ≤ 0
  · simp [h1] at hok
  · by_cases h2 : p.members.isEmpty
    · simp [h1, h2] at hok
    · simp [h1, h2] at hok
      rw [← hok.1]

/-! Claim theorems. -/

/-- Claim C1: for every guild and every positive count, the result of
`pick(count)` is a sequence of at most `min(count, size())` members, with no
duplicates, every element of which was a member of the pool at the time of
the draw.  (`MemberPool.pick` is modelled from the spec, with the random
shuffle passed in as a permutation of the member list.) -/
theorem pick_at_most_min_nodup_from_pool (p : MemberPool) (count : Int)
    (shuffled : List Member) (p2 : MemberPool) (batch : List Member)
    (hperm : shuffled.Perm p.members) (hnodup : p.members.Nodup)
    (hok : p.pick count shuffled = .ok (p2, batch)) :
    batch.length ≤ min count.toNat p.size ∧ batch.Nodup ∧ ∀ m ∈ batch, m ∈ p.members := by
  unfold MemberPool.pick at hok
  by_cases h1 : count ≤ 0
  · simp [h1] at hok
  · by_cases h2 : p.members.isEmpty
    · simp [h1, h2] at hok
    · simp [h1, h2] at hok
      obtain ⟨-, hbatch⟩ := hok
      subst hbatch
      refine ⟨?_, ?_, ?_⟩
      · rw [List.length_take, MemberPool.size]
        exact min_le_left _ _
      · exact ((List.take_sublist _ _).nodup) (hperm.nodup_iff.mpr hnodup)
      · intro m hm
        exact hperm.subset (List.take_subset _ _ hm)

/-- Witness for C1 at a concrete pool of two members, count 1, reversed
shuffle. -/
theorem pick_at_most_min_nodup_from_pool_witness :
    ([bob, alice].Perm poolAB.members) ∧ poolAB.members.Nodup ∧
    (poolAB.pick 1 [bob, alice]
      = .ok ({ guildId := 9, state := .closed, members := [alice, bob] }, [bob])) ∧
    ([bob].length ≤ min (Int.toNat 1) poolAB.size ∧ [bob].Nodup ∧
      ∀ m ∈ [bob], m ∈ poolAB.members) :=
  ⟨by decide, by decide, rfl,
    pick_at_most_min_nodup_from_pool poolAB 1 [bob, alice] _ _ (by decide) (by decide) rfl⟩

/-- Claim C2 (code bug): with exclusion tracking enabled, the very first
`pick` for a guild raises `KeyError` at line 145
(`self._previously_selected_users[ctx.guild.id].update(...)`), because no
code path ever inserts the guild id as a key; the picked members are never
recorded in the exclusion structure. -/
theorem pick_exclusion_raises_keyerror :
    (pickCmd (joinCmd (openCmd initialState 9 "t") 9 alice cfgExclude).fst
        9 1 [alice] cfgExclude sendOk).snd = .error .keyError := by
  rfl

/-- Claim C3 (code bug): `resend` for a guild with no prior `pick` raises
`KeyError` (line 165 indexes the initial empty dict without a default)
instead of completing as a no-op with zero deliveries. -/
theorem resend_without_pick_raises_keyerror :
    (resendCmd initialState 9 sendOk).snd = .error .keyError := by
  rfl

/-- Claim C4: `join` while the guild pool is closed fails with the
pool-closed reply and leaves the pool membership (and state) unchanged. -/
theorem join_closed_rejects_and_preserves (st : CogState) (g : Nat) (m : Member)
    (cfg : GameCodeConfig) (hclosed : (st.poolFor g).state = .closed) :
    (joinCmd st g m cfg).snd = .poolClosed ∧
    ((joinCmd st g m cfg).fst.poolFor g).members = (st.poolFor g).members ∧
    ((joinCmd st g m cfg).fst.poolFor g).state = .closed := by
  have hopen : (st.poolFor g).isOpen = false := by
    unfold MemberPool.isOpen
    rw [hclosed]
    rfl
  unfold joinCmd
  simp only [ensurePool_poolFor, hopen, Bool.false_eq_true, if_false]
  exact ⟨trivial, trivial, hclosed⟩

/-- Witness for C4 at the initial state, where every pool is closed. -/
theorem join_closed_rejects_and_preserves_witness :
    ((initialState.poolFor 9).state = .closed) ∧
    ((joinCmd initialState 9 alice cfgPlain).snd = .poolClosed ∧
      ((joinCmd initialState 9 alice cfgPlain).fst.poolFor 9).members
        = (initialState.poolFor 9).members ∧
      ((joinCmd initialState 9 alice cfgPlain).fst.poolFor 9).state = .closed) :=
  ⟨rfl, join_closed_rejects_and_preserves initialState 9 alice cfgPlain rfl⟩

/-- Claim C7 (code bug): after a `pick`, `_picked_users` is the bare batch
list (line 142), so `resend` indexes that list with the guild id and raises
`IndexError` instead of delivering to the selection batch; the dispatch
inside `pick` itself fails the same way. -/
theorem resend_after_pick_raises_indexerror :
    (pickCmd stOpenAliceBob 9 2 [alice, bob] cfgPlain sendOk).snd = .error .indexError ∧
    (resendCmd (pickCmd stOpenAliceBob 9 2 [alice, bob] cfgPlain sendOk).fst 9 sendOk).snd
      = .error .indexError := by
  exact ⟨rfl, rfl⟩

/-- Claim C9 (code bug): operations for one guild change state observed by
other guilds: `open` for guild 1 replaces the process-wide title that guild
2 set, and `clear_selected` for guild 1 replaces the whole exclusion
structure (shared by all guilds) with one empty set. -/
theorem cross_guild_interference :
    (openCmd (openCmd initialState 2 "Trivia") 1 "Bingo").title = "Bingo" ∧
    (openCmd initialState 2 "Trivia").title = "Trivia" ∧
    (clearSelectedCmd (openCmd initialState 2 "Trivia") 1).prevSelected = .pyset [] ∧
    (openCmd initialState 2 "Trivia").prevSelected = .dict [] :=
  ⟨rfl, rfl, rfl, rfl⟩

/-- Claim C5: the fan-out of `resend` (which `pick` also runs) attempts
delivery to every recipient of the list, reports exactly the failed
recipients with their reasons, and one failed delivery never aborts the
remaining ones. -/
theorem dispatch_attempts_all_reports_failures (recipients : List Member)
    (send : Member → SendOutcome) (st : CogState) (g : Nat)
    (hrec : st.pickedUsers.recipients g = .ok recipients) :
    (resendCmd st g send).snd = .ok (dispatchLoop recipients send) ∧
    (dispatchLoop recipients send).attempted = recipients ∧
    (dispatchLoop recipients send).failures
      = (recipients.filter (fun m => !(send m).isDelivered)).map (fun m => (m, send m)) ∧
    (dispatchLoop recipients send).delivered
      = recipients.filter (fun m => (send m).isDelivered) := by
  have h : ∀ l : List Member, (dispatchLoop l send).attempted = l ∧
      (dispatchLoop l send).failures
        = (l.filter (fun m => !(send m).isDelivered)).map (fun m => (m, send m)) ∧
      (dispatchLoop l send).delivered = l.filter (fun m => (send m).isDelivered) := by
    intro l
    induction l with
    | nil => exact ⟨rfl, rfl, rfl⟩
    | cons u rest ih =>
      obtain ⟨ih1, ih2, ih3⟩ := ih
      cases hs : send u <;>
        simp [dispatchLoop, hs, ih1, ih2, ih3, SendOutcome.isDelivered, List.filter_cons]
  exact ⟨by simp [resendCmd, hrec], (h recipients).1, (h recipients).2.1, (h recipients).2.2⟩

/-- Witness for C5: three recipients, the second with closed DMs; all three
are attempted and exactly the second is reported failed. -/
theorem dispatch_attempts_all_reports_failures_witness :
    (stBatch.pickedUsers.recipients 9 = .ok [alice, bob, carol]) ∧
    ((resendCmd stBatch 9 sendFailBob).snd = .ok (dispatchLoop [alice, bob, carol] sendFailBob) ∧
      (dispatchLoop [alice, bob, carol] sendFailBob).attempted = [alice, bob, carol] ∧
      (dispatchLoop [alice, bob, carol] sendFailBob).failures
        = ([alice, bob, carol].filter (fun m => !(sendFailBob m).isDelivered)).map
            (fun m => (m, sendFailBob m)) ∧
      (dispatchLoop [alice, bob, carol] sendFailBob).delivered
        = [alice, bob, carol].filter (fun m => (sendFailBob m).isDelivered)) :=
  ⟨rfl, dispatch_attempts_all_reports_failures [alice, bob, carol] sendFailBob stBatch 9 rfl⟩

/-- Claim C6: after a pick whose draw succeeds, the guild pool is closed,
whatever its prior state, even though the command afterwards fails with an
exception (the pool object was already mutated). -/
theorem pick_always_closes_pool (st : CogState) (g : Nat) (count : Int)
    (shuffled : List Member) (cfg : GameCodeConfig) (send : Member → SendOutcome)
    (p2 : MemberPool) (batch : List Member)
    (hok : (st.poolFor g).pick count shuffled = .ok (p2, batch)) :
    ((pickCmd st g count shuffled cfg send).fst.poolFor g).state = .closed := by
  have hok2 : ((st.ensurePool g).poolFor g).pick count shuffled = .ok (p2, batch) := by
    rw [ensurePool_poolFor]
    exact hok
  have hpools : (pickCmd st g count shuffled cfg send).fst.pools
      = ((st.ensurePool g).setPool g p2).pools := by
    simp only [pickCmd, hok2]
    split
    · split
      · rfl
      · rw [resendCmd_fst]
    · rw [resendCmd_fst]
  rw [poolFor_eq_of_pools_eq _ _ g hpools,
    setPool_poolFor (st.ensurePool g) g p2 (ensurePool_find_isSome st g),
    pick_ok_state_closed _ count shuffled p2 batch hok]

/-- Witness for C6: a concrete open pool with one member is closed by the
pick. -/
theorem pick_always_closes_pool_witness :
    ((stOpenAlice.poolFor 9).pick 1 [alice]
      = .ok ({ guildId := 9, state := .closed, members := [alice] }, [alice])) ∧
    ((pickCmd stOpenAlice 9 1 [alice] cfgPlain sendOk).fst.poolFor 9).state = .closed :=
  ⟨rfl, pick_always_closes_pool stOpenAlice 9 1 [alice] cfgPlain sendOk _ _ rfl⟩

/-- Claim C8: `open` always succeeds, sets the guild pool state to `Open`,
clears neither the membership nor the exclusion structure nor the picked
users, and replaces the title exactly when the supplied title is non-empty. -/
theorem open_sets_state_and_preserves (st : CogState) (g : Nat) (t : String) :
    ((openCmd st g t).poolFor g).state = .opened ∧
    ((openCmd st g t).poolFor g).members = (st.poolFor g).members ∧
    (openCmd st g t).prevSelected = st.prevSelected ∧
    (openCmd st g t).pickedUsers = st.pickedUsers ∧
    (openCmd st g t).title = (if t == "" then st.title else t) := by
  have hset := setPool_poolFor (st.ensurePool g) g ((st.ensurePool g).poolFor g).openPool
    (ensurePool_find_isSome st g)
  have hE := ensurePool_frame st g
  have hS := setPool_frame (st.ensurePool g) g ((st.ensurePool g).poolFor g).openPool
  have htt : ((true : Bool) = true) := rfl
  have hff : ¬((false : Bool) = true) := Bool.false_ne_true
  simp only [openCmd]
  cases ht : t == "" with
  | true =>
    rw [if_pos htt, if_pos htt]
    exact ⟨by rw [hset]; rfl,
      by rw [hset, ensurePool_poolFor]; rfl,
      (hS.2.2).trans hE.2.2,
      (hS.2.1).trans hE.2.1,
      (hS.1).trans hE.1⟩
  | false =>
    rw [if_neg hff, if_neg hff]
    exact ⟨by rw [poolFor_set_title, hset]; rfl,
      by rw [poolFor_set_title, hset, ensurePool_poolFor]; rfl,
      (hS.2.2).trans hE.2.2,
      (hS.2.1).trans hE.2.1,
      rfl⟩

/-- Claim C10: while the pool is open, `join` runs the recently-selected
test right after the open test, before the role check inside `add_member`,
independently of the exclusion-tracking configuration flag, and no run both
rejects as recently selected and reports a missing role. -/
theorem join_recent_check_first_unconditional (st : CogState) (g : Nat) (m : Member)
    (cfg : GameCodeConfig) (b : Bool)
    (hopen : (st.poolFor g).isOpen = true) :
    joinTrace st g m { cfg with excludeSelected := b } = joinTrace st g m cfg ∧
    (∃ rest, joinTrace st g m cfg = .checkOpen :: .checkRecent :: rest) ∧
    ¬(JoinStep.replyRecent ∈ joinTrace st g m cfg ∧
      JoinStep.replyRoleError ∈ joinTrace st g m cfg) := by
  have hopen2 : ((st.ensurePool g).poolFor g).isOpen = true := by
    rw [ensurePool_poolFor]
    exact hopen
  refine ⟨rfl, ?_, ?_⟩
  · simp only [joinTrace]
    rw [if_pos hopen2]
    exact ⟨_, rfl⟩
  · simp only [joinTrace]
    rw [if_pos hopen2]
    cases hsel : (st.ensurePool g).prevSelected.containsMember m with
    | true =>
      rw [if_pos (rfl : (true : Bool) = true)]
      decide
    | false =>
      rw [if_neg (Bool.false_ne_true : ¬((false : Bool) = true))]
      cases hadd : ((st.ensurePool g).poolFor g).addMember cfg.playerRoles m with
      | ok p2 => simp
      | error e => simp

/-- Witness for C10 at a concrete open pool. -/
theorem join_recent_check_first_unconditional_witness :
    (((openCmd initialState 3 "").poolFor 3).isOpen = true) ∧
    (joinTrace (openCmd initialState 3 "") 3 alice { cfgPlain with excludeSelected := true }
        = joinTrace (openCmd initialState 3 "") 3 alice cfgPlain ∧
      (∃ rest, joinTrace (openCmd initialState 3 "") 3 alice cfgPlain
          = .checkOpen :: .checkRecent :: rest) ∧
      ¬(JoinStep.replyRecent ∈ joinTrace (openCmd initialState 3 "") 3 alice cfgPlain ∧
        JoinStep.replyRoleError ∈ joinTrace (openCmd initialState 3 "") 3 alice cfgPlain)) :=
  ⟨rfl, join_recent_check_first_unconditional (openCmd initialState 3 "") 3 alice cfgPlain true rfl⟩

end Dingomata
